import Mathlib

/-!
Shallow embedding of the multi-view capture subsystem of the STL → OpenSCAD
reconstruction app.  The code embedded here is the `captureMultiViews` routine
of the scene component (target resolution, fit-distance computation, the
18-entry orientation table, the 36-view pose list, the capture loop with its
try/finally restore) together with the view-label tables of the UI layer.

The embedding is polymorphic over a linear ordered field `K`; the external
math-library calls of the source (`Math.tan`, vector `normalize`, i.e. square
root, and the renderer's `lookAt`) are passed in as explicit function
parameters, so the structural behaviour can be evaluated at `K := ℚ` while the
real-geometry facts are settled at `K := ℝ` with `Real.tan` and `Real.sqrt`.
Rendering plus JPEG encoding is modelled as one fallible function
`Camera K → Except E F` (a thrown exception becomes `Except.error`).
-/

namespace Capture

/-- A 3-component vector, mirroring `THREE.Vector3`. -/
@[ext]
structure Vec3 (K : Type) where
  x : K
  y : K
  z : K
  deriving DecidableEq

/-- Componentwise addition (`Vector3.add`). -/
def Vec3.add {K : Type} [LinearOrderedField K] (a b : Vec3 K) : Vec3 K :=
  ⟨a.x + b.x, a.y + b.y, a.z + b.z⟩

/-- Componentwise subtraction (`Vector3.sub`). -/
def Vec3.sub {K : Type} [LinearOrderedField K] (a b : Vec3 K) : Vec3 K :=
  ⟨a.x - b.x, a.y - b.y, a.z - b.z⟩

/-- Scalar multiplication (`Vector3.multiplyScalar`). -/
def Vec3.smul {K : Type} [LinearOrderedField K] (c : K) (v : Vec3 K) : Vec3 K :=
  ⟨c * v.x, c * v.y, c * v.z⟩

/-- Dot product (`Vector3.dot`). -/
def Vec3.dot {K : Type} [LinearOrderedField K] (a b : Vec3 K) : K :=
  a.x * b.x + a.y * b.y + a.z * b.z

/-- Cross product (`Vector3.cross`). -/
def Vec3.cross {K : Type} [LinearOrderedField K] (a b : Vec3 K) : Vec3 K :=
  ⟨a.y * b.z - a.z * b.y, a.z * b.x - a.x * b.z, a.x * b.y - a.y * b.x⟩

/-- Squared euclidean length (`Vector3.lengthSq`). -/
def Vec3.normSq {K : Type} [LinearOrderedField K] (v : Vec3 K) : K :=
  v.dot v

/-- `Vector3.normalize`: divide by the length, the length being the square
root of the squared length.  The square-root function of the math library is a
parameter. -/
def Vec3.normalize {K : Type} [LinearOrderedField K] (sqrt : K → K) (v : Vec3 K) : Vec3 K :=
  Vec3.smul (1 / sqrt v.normSq) v

/-- Euclidean length (`Vector3.length`): the square root of the squared
length, the math library's square root being a parameter. -/
def Vec3.length {K : Type} [LinearOrderedField K] (sqrt : K → K) (v : Vec3 K) : K :=
  sqrt v.normSq

/-- An axis-aligned bounding box, mirroring `THREE.Box3` (world space). -/
structure Box3 (K : Type) where
  min : Vec3 K
  max : Vec3 K
  deriving DecidableEq

/-- `Box3.getCenter`: the midpoint of the two corners. -/
def Box3.getCenter {K : Type} [LinearOrderedField K] (b : Box3 K) : Vec3 K :=
  Vec3.smul (1 / 2) (b.min.add b.max)

/-- `Box3.getSize`: the per-axis extent. -/
def Box3.getSize {K : Type} [LinearOrderedField K] (b : Box3 K) : Vec3 K :=
  b.max.sub b.min

/-- One entry of the source's `baseOrientations` array: a name, an (as yet
unnormalized) direction vector and the paired up-vector. -/
structure Orientation (K : Type) where
  name : String
  vec : Vec3 K
  up : Vec3 K
  deriving DecidableEq

/-- The 18 spherical orientations of `captureMultiViews`, in declared order:
6 cardinal views, the horizontal 45° ring, the vertical X-ring and the
vertical Z-ring. -/
def baseOrientations {K : Type} [LinearOrderedField K] : List (Orientation K) :=
  [ ⟨"Top",    ⟨0, 1, 0⟩,  ⟨0, 0, -1⟩⟩,
    ⟨"Bottom", ⟨0, -1, 0⟩, ⟨0, 0, 1⟩⟩,
    ⟨"Front",  ⟨0, 0, 1⟩,  ⟨0, 1, 0⟩⟩,
    ⟨"Back",   ⟨0, 0, -1⟩, ⟨0, 1, 0⟩⟩,
    ⟨"Left",   ⟨-1, 0, 0⟩, ⟨0, 1, 0⟩⟩,
    ⟨"Right",  ⟨1, 0, 0⟩,  ⟨0, 1, 0⟩⟩,
    ⟨"Front-Right", ⟨1, 0, 1⟩,   ⟨0, 1, 0⟩⟩,
    ⟨"Right-Back",  ⟨1, 0, -1⟩,  ⟨0, 1, 0⟩⟩,
    ⟨"Back-Left",   ⟨-1, 0, -1⟩, ⟨0, 1, 0⟩⟩,
    ⟨"Left-Front",  ⟨-1, 0, 1⟩,  ⟨0, 1, 0⟩⟩,
    ⟨"Top-Front",    ⟨0, 1, 1⟩,   ⟨0, 1, 0⟩⟩,
    ⟨"Front-Bottom", ⟨0, -1, 1⟩,  ⟨0, 1, 0⟩⟩,
    ⟨"Bottom-Back",  ⟨0, -1, -1⟩, ⟨0, 1, 0⟩⟩,
    ⟨"Back-Top",     ⟨0, 1, -1⟩,  ⟨0, 1, 0⟩⟩,
    ⟨"Top-Right",    ⟨1, 1, 0⟩,   ⟨0, 1, 0⟩⟩,
    ⟨"Right-Bottom", ⟨1, -1, 0⟩,  ⟨0, 1, 0⟩⟩,
    ⟨"Bottom-Left",  ⟨-1, -1, 0⟩, ⟨0, 1, 0⟩⟩,
    ⟨"Left-Top",     ⟨-1, 1, 0⟩,  ⟨0, 1, 0⟩⟩ ]

/-- One entry of the source's `views` array: a name, the camera offset from
the object center, and the up-vector. -/
structure View (K : Type) where
  name : String
  offset : Vec3 K
  up : Vec3 K
  deriving DecidableEq

/-- The 36-view list of `captureMultiViews`: the 18 global views (offset =
normalized direction × `standardDist`) followed by the 18 local views
(suffix " Detail", offset scaled by `macroDist`). -/
def mkViews {K : Type} [LinearOrderedField K] (sqrt : K → K) (standardDist macroDist : K) :
    List (View K) :=
  (baseOrientations.map fun o =>
    { name := o.name
      offset := Vec3.smul standardDist (Vec3.normalize sqrt o.vec)
      up := o.up })
  ++ (baseOrientations.map fun o =>
    { name := o.name ++ " Detail"
      offset := Vec3.smul macroDist (Vec3.normalize sqrt o.vec)
      up := o.up })

/-- A renderable object of the scene graph as far as `captureMultiViews`
observes it: its name, whether it is a mesh, and its world-space bounding box
(the value `Box3().setFromObject` would compute for it). -/
structure SceneObject (K : Type) where
  name : String
  isMesh : Bool
  box : Box3 K
  deriving DecidableEq

/-- The `scene.traverse` assignment pattern: visit every child in order and
overwrite the accumulator whenever the predicate matches, so the last match
wins. -/
def traverseAssign {K : Type} (p : SceneObject K → Bool) (scene : List (SceneObject K)) :
    Option (SceneObject K) :=
  scene.foldl (fun acc c => if p c then some c else acc) none

/-- Target resolution of `captureMultiViews`: first look for a mesh named
"target-mesh"; if none is found, fall back to any mesh. -/
def findTarget {K : Type} (scene : List (SceneObject K)) : Option (SceneObject K) :=
  match traverseAssign (fun c => c.isMesh && c.name == "target-mesh") scene with
  | some m => some m
  | none => traverseAssign (fun c => c.isMesh) scene

/-- The fit-to-view distance computed from a target's bounding box:
`Math.abs((maxDim / 2) / Math.tan(fov / 2))` with `maxDim` the largest box
extent and `fov` the vertical field of view converted to radians. -/
def fitDistanceOf {K : Type} [LinearOrderedField K] (tan : K → K) (pi : K) (fovDeg : K)
    (box : Box3 K) : K :=
  let size := box.getSize
  let maxDim := max (max size.x size.y) size.z
  let fov := fovDeg * (pi / 180)
  |maxDim / 2 / tan (fov / 2)|

/-- Steps 1–2 of `captureMultiViews`: resolve the target and produce the pair
(center, fitDistance), starting from the defaults `(0,0,0)` and `100` that
remain in force when no mesh is found. -/
def sceneCenterFit {K : Type} [LinearOrderedField K] (tan : K → K) (pi : K) (fovDeg : K)
    (scene : List (SceneObject K)) : Vec3 K × K :=
  match findTarget scene with
  | none => (⟨0, 0, 0⟩, 100)
  | some m => (m.box.getCenter, fitDistanceOf tan pi fovDeg m.box)

/-- The camera state that `captureMultiViews` snapshots and mutates: position,
Euler rotation, up-vector; `fov` is carried along because the routine reads it
(`camera.fov`) but never writes it. -/
structure Camera (K : Type) where
  position : Vec3 K
  rotation : Vec3 K
  up : Vec3 K
  fov : K
  deriving DecidableEq

/-- The two interactive-controls switches the routine toggles. -/
structure ControlsState where
  enabled : Bool
  autoRotate : Bool
  deriving DecidableEq

/-- The mutable state owned by the capture session: the camera and the
(possibly absent, `controlsRef.current`) interactive controls. -/
structure SessionState (K : Type) where
  camera : Camera K
  controls : Option ControlsState
  deriving DecidableEq

/-- The camera as configured for one view inside the loop: position is
center + offset, the up-vector is the view's, and the rotation is whatever the
renderer's `lookAt` computes from position, up and target. -/
def poseCamera {K : Type} [LinearOrderedField K]
    (lookAt : Vec3 K → Vec3 K → Vec3 K → Vec3 K) (fov : K) (center : Vec3 K) (v : View K) :
    Camera K :=
  let camPos := center.add v.offset
  { position := camPos
    rotation := lookAt camPos v.up center
    up := v.up
    fov := fov }

/-- The capture loop body: apply each pose in order, render-and-encode, and
accumulate the snapshots; the first failure aborts the remaining poses and is
returned as the error. -/
def runViews {K : Type} [LinearOrderedField K] {E F : Type}
    (render : Camera K → Except E F) (lookAt : Vec3 K → Vec3 K → Vec3 K → Vec3 K)
    (fov : K) (center : Vec3 K) :
    List (View K) → List F → Except E (List F)
  | [], snapshots => Except.ok snapshots
  | v :: rest, snapshots =>
    match render (poseCamera lookAt fov center v) with
    | Except.ok frame => runViews render lookAt fov center rest (snapshots ++ [frame])
    | Except.error e => Except.error e

/-- The pose list the session runs: the 36 views built from the resolved fit
distance with the 1.6 standard margin and the 0.55 macro zoom. -/
def sessionViews {K : Type} [LinearOrderedField K] (tan sqrt : K → K) (pi : K) (fovDeg : K)
    (scene : List (SceneObject K)) : List (View K) :=
  let fitDistance := (sceneCenterFit tan pi fovDeg scene).2
  mkViews sqrt (fitDistance * 1.6) (fitDistance * 0.55)

/-- The whole `captureMultiViews` call: resolve target and distances, snapshot
the camera, disable the controls, run the loop, and (as the `finally` block)
restore position/rotation/up from the snapshot and re-enable the controls
with auto-rotate on, whether the loop succeeded or failed.  Returns the final
session state together with the loop's result. -/
def captureMultiViews {K : Type} [LinearOrderedField K] {E F : Type}
    (tan sqrt : K → K) (pi : K) (lookAt : Vec3 K → Vec3 K → Vec3 K → Vec3 K)
    (render : Camera K → Except E F) (scene : List (SceneObject K)) (st : SessionState K) :
    SessionState K × Except E (List F) :=
  let cf := sceneCenterFit tan pi st.camera.fov scene
  let center := cf.1
  let fitDistance := cf.2
  let standardDist := fitDistance * 1.6
  let macroDist := fitDistance * 0.55
  let originalPosition := st.camera.position
  let originalRotation := st.camera.rotation
  let originalUp := st.camera.up
  let views := mkViews sqrt standardDist macroDist
  let controlsDuring := st.controls.map fun c => { c with enabled := false, autoRotate := false }
  let result := runViews render lookAt st.camera.fov center views []
  let restoredCamera : Camera K :=
    { position := originalPosition
      rotation := originalRotation
      up := originalUp
      fov := st.camera.fov }
  let controlsAfter := controlsDuring.map fun c => { c with enabled := true, autoRotate := true }
  ({ camera := restoredCamera, controls := controlsAfter }, result)

/-- The UI layer's list of 18 orientation names (`ORIENTATIONS` in the app
component). -/
def ORIENTATIONS : List String :=
  [ "Top", "Bottom", "Front", "Back", "Left", "Right",
    "Front-Right", "Right-Back", "Back-Left", "Left-Front",
    "Top-Front", "Front-Bottom", "Bottom-Back", "Back-Top",
    "Top-Right", "Right-Bottom", "Bottom-Left", "Left-Top" ]

/-- The UI layer's 36 view labels (`VIEW_LABELS` in the app component): the
18 names suffixed " (Global)" followed by the same names suffixed
" (Local Detail)". -/
def VIEW_LABELS : List String :=
  ORIENTATIONS.map (fun name => name ++ " (Global)")
  ++ ORIENTATIONS.map (fun name => name ++ " (Local Detail)")

/-! ## Basic structural lemmas -/

theorem mkViews_length {K : Type} [LinearOrderedField K] (sqrt : K → K) (s t : K) :
    (mkViews sqrt s t).length = 36 :=
  rfl

theorem sessionViews_length {K : Type} [LinearOrderedField K] (tan sqrt : K → K) (pi : K)
    (fovDeg : K) (scene : List (SceneObject K)) :
    (sessionViews tan sqrt pi fovDeg scene).length = 36 :=
  rfl

theorem sessionViews_eq_mkViews {K : Type} [LinearOrderedField K] (tan sqrt : K → K) (pi : K)
    (fovDeg : K) (scene : List (SceneObject K)) :
    sessionViews tan sqrt pi fovDeg scene
      = mkViews sqrt ((sceneCenterFit tan pi fovDeg scene).2 * 1.6)
          ((sceneCenterFit tan pi fovDeg scene).2 * 0.55) :=
  rfl

/-- Positional structure of the 36-view list: entry `i` (for `i < 18`) is the
global view of table entry `i`, and entry `i + 18` is its detail view. -/
theorem mkViews_getElem {K : Type} [LinearOrderedField K] (sqrt : K → K) (s t : K)
    (i : ℕ) (hi : i < 18) :
    ∃ o : Orientation K, (baseOrientations (K := K))[i]? = some o
      ∧ (mkViews sqrt s t)[i]?
          = some { name := o.name, offset := Vec3.smul s (Vec3.normalize sqrt o.vec), up := o.up }
      ∧ (mkViews sqrt s t)[i + 18]?
          = some { name := o.name ++ " Detail",
                   offset := Vec3.smul t (Vec3.normalize sqrt o.vec), up := o.up } := by
  have hlen : (baseOrientations (K := K)).length = 18 := rfl
  have hib : i < (baseOrientations (K := K)).length := by rw [hlen]; exact hi
  have hno : ¬ i + 18 < 18 := by omega
  have hsub : i + 18 - 18 = i := by omega
  refine ⟨(baseOrientations (K := K)).get ⟨i, hib⟩, ?_, ?_, ?_⟩
  · simp [List.getElem?_eq_getElem hib]
  · rw [mkViews, List.getElem?_append]
    simp [hlen, hi, List.getElem?_eq_getElem hib]
  · rw [mkViews, List.getElem?_append]
    simp [hlen, hno, hsub, List.getElem?_eq_getElem hib]

/-- If every render succeeds, the loop returns the accumulated snapshots
followed by one frame per view, in order. -/
theorem runViews_ok_of_total {K : Type} [LinearOrderedField K] {E F : Type}
    (f : Camera K → F) (lookAt : Vec3 K → Vec3 K → Vec3 K → Vec3 K) (fov : K) (center : Vec3 K)
    (views : List (View K)) :
    ∀ acc : List F,
      runViews (E := E) (fun c => Except.ok (f c)) lookAt fov center views acc
        = Except.ok (acc ++ views.map (fun v => f (poseCamera lookAt fov center v))) := by
  induction views with
  | nil => intro acc; simp [runViews]
  | cons v rest ih =>
    intro acc
    simp [runViews, ih]

/-- If the render of pose `k` fails with `e` while every earlier pose
succeeds, the loop aborts with exactly that error, whatever was accumulated. -/
theorem runViews_error_of_fail {K : Type} [LinearOrderedField K] {E F : Type}
    (render : Camera K → Except E F) (lookAt : Vec3 K → Vec3 K → Vec3 K → Vec3 K)
    (fov : K) (center : Vec3 K) :
    ∀ (views : List (View K)) (k : ℕ) (hk : k < views.length) (e : E),
      render (poseCamera lookAt fov center (views.get ⟨k, hk⟩)) = Except.error e →
      (∀ j (hj : j < k),
        ∃ fr, render (poseCamera lookAt fov center (views.get ⟨j, Nat.lt_trans hj hk⟩))
          = Except.ok fr) →
      ∀ acc, runViews render lookAt fov center views acc = Except.error e := by
  intro views
  induction views with
  | nil => intro k hk; exact absurd hk (by simp)
  | cons v rest ih =>
    intro k hk e herr hok acc
    cases k with
    | zero =>
      simp only [List.get] at herr
      simp [runViews, herr]
    | succ k =>
      obtain ⟨fr, hfr⟩ := hok 0 (Nat.succ_pos k)
      simp only [List.get] at hfr
      have hrec := ih k (Nat.lt_of_succ_lt_succ hk) e (by simpa using herr)
        (fun j hj => by simpa using hok (j + 1) (Nat.succ_lt_succ hj))
      simp [runViews, hfr, hrec]

/-- The loop either succeeds with one frame per view on top of the
accumulator, or fails with some error: no other outcome exists. -/
theorem runViews_ok_or_error {K : Type} [LinearOrderedField K] {E F : Type}
    (render : Camera K → Except E F) (lookAt : Vec3 K → Vec3 K → Vec3 K → Vec3 K)
    (fov : K) (center : Vec3 K) :
    ∀ (views : List (View K)) (acc : List F),
      (∃ l, runViews render lookAt fov center views acc = Except.ok l
            ∧ l.length = acc.length + views.length)
      ∨ (∃ e, runViews render lookAt fov center views acc = Except.error e) := by
  intro views
  induction views with
  | nil => intro acc; exact Or.inl ⟨acc, by simp [runViews]⟩
  | cons v rest ih =>
    intro acc
    rw [runViews]
    cases hr : render (poseCamera lookAt fov center v) with
    | error e => exact Or.inr ⟨e, rfl⟩
    | ok fr =>
      rcases ih (acc ++ [fr]) with ⟨l, hl, hlen⟩ | ⟨e, he⟩
      · exact Or.inl ⟨l, hl, by simp at hlen; simp [hlen]; omega⟩
      · exact Or.inr ⟨e, he⟩

/-- The `finally` block in one lemma: whatever the render function did, the
final session state has the snapshotted camera back and the controls switched
on. -/
theorem capture_final_state {K : Type} [LinearOrderedField K] {E F : Type}
    (tan sqrt : K → K) (pi : K) (lookAt : Vec3 K → Vec3 K → Vec3 K → Vec3 K)
    (render : Camera K → Except E F) (scene : List (SceneObject K)) (st : SessionState K) :
    ((captureMultiViews tan sqrt pi lookAt render scene st).1).camera = st.camera
    ∧ ((captureMultiViews tan sqrt pi lookAt render scene st).1).controls
        = st.controls.map (fun _ => { enabled := true, autoRotate := true }) := by
  obtain ⟨cam, ctl⟩ := st
  cases ctl <;> exact ⟨rfl, rfl⟩

/-! ## Claim theorems -/

/-- C1: on success the capture returns the ordered sequence of 36 encoded
frames, one per pose; the pose list has exactly 36 entries built from the
18-entry orientation table, the first 18 scaled by the standard (× 1.6)
distance, the last 18 by the detail (× 0.55) distance, each block in table
order. -/
theorem capture_views_structure {K : Type} [LinearOrderedField K] {E F : Type}
    (tan sqrt : K → K) (pi : K) (lookAt : Vec3 K → Vec3 K → Vec3 K → Vec3 K)
    (scene : List (SceneObject K)) (st : SessionState K) (f : Camera K → F) :
    (sessionViews tan sqrt pi st.camera.fov scene).length = 36
    ∧ (∀ i, i < 18 → ∃ o : Orientation K,
        (baseOrientations (K := K))[i]? = some o
        ∧ (sessionViews tan sqrt pi st.camera.fov scene)[i]?
            = some { name := o.name,
                     offset := Vec3.smul ((sceneCenterFit tan pi st.camera.fov scene).2 * 1.6)
                       (Vec3.normalize sqrt o.vec),
                     up := o.up }
        ∧ (sessionViews tan sqrt pi st.camera.fov scene)[i + 18]?
            = some { name := o.name ++ " Detail",
                     offset := Vec3.smul ((sceneCenterFit tan pi st.camera.fov scene).2 * 0.55)
                       (Vec3.normalize sqrt o.vec),
                     up := o.up })
    ∧ (captureMultiViews (E := E) tan sqrt pi lookAt (fun c => Except.ok (f c)) scene st).2
        = Except.ok ((sessionViews tan sqrt pi st.camera.fov scene).map
            (fun v => f (poseCamera lookAt st.camera.fov
              (sceneCenterFit tan pi st.camera.fov scene).1 v)))
    ∧ ((sessionViews tan sqrt pi st.camera.fov scene).map
        (fun v => f (poseCamera lookAt st.camera.fov
          (sceneCenterFit tan pi st.camera.fov scene).1 v))).length = 36 := by
  refine ⟨rfl, ?_, ?_, by simp [sessionViews_length]⟩
  · intro i hi
    simpa only [sessionViews_eq_mkViews] using mkViews_getElem sqrt _ _ i hi
  · show runViews (fun c => Except.ok (f c)) lookAt st.camera.fov _ _ [] = _
    rw [runViews_ok_of_total]
    simp [sessionViews_eq_mkViews]

/-- C2: after every capture call, successful or failed, the camera's
position, rotation and up-vector equal the pre-call snapshot (exactly, hence
within 1e-6), and the interactive controls are re-enabled with auto-rotate
restored. -/
theorem capture_restores_camera_and_controls {K : Type} [LinearOrderedField K] {E F : Type}
    (tan sqrt : K → K) (pi : K) (lookAt : Vec3 K → Vec3 K → Vec3 K → Vec3 K)
    (render : Camera K → Except E F) (scene : List (SceneObject K)) (st : SessionState K) :
    ((captureMultiViews tan sqrt pi lookAt render scene st).1).camera.position
        = st.camera.position
    ∧ ((captureMultiViews tan sqrt pi lookAt render scene st).1).camera.rotation
        = st.camera.rotation
    ∧ ((captureMultiViews tan sqrt pi lookAt render scene st).1).camera.up = st.camera.up
    ∧ ((captureMultiViews tan sqrt pi lookAt render scene st).1).camera = st.camera
    ∧ ((captureMultiViews tan sqrt pi lookAt render scene st).1).controls
        = st.controls.map (fun _ => { enabled := true, autoRotate := true }) := by
  obtain ⟨cam, ctl⟩ := st
  cases ctl <;> exact ⟨rfl, rfl, rfl, rfl, rfl⟩

/-- C3: if rendering or encoding fails at pose `k` while all earlier poses
succeed, the capture returns exactly the original error and no frames, and
the cleanup still runs: the camera is restored and the controls re-enabled.
Moreover every capture outcome is either a complete 36-frame success or an
error, never a partial sequence. -/
theorem capture_failure_propagates {K : Type} [LinearOrderedField K] {E F : Type}
    (tan sqrt : K → K) (pi : K) (lookAt : Vec3 K → Vec3 K → Vec3 K → Vec3 K)
    (render : Camera K → Except E F) (scene : List (SceneObject K)) (st : SessionState K)
    (k : ℕ) (e : E)
    (hk : k < (sessionViews tan sqrt pi st.camera.fov scene).length)
    (herr : render (poseCamera lookAt st.camera.fov (sceneCenterFit tan pi st.camera.fov scene).1
        ((sessionViews tan sqrt pi st.camera.fov scene).get ⟨k, hk⟩)) = Except.error e)
    (hok : ∀ j (hj : j < k),
      ∃ fr, render (poseCamera lookAt st.camera.fov (sceneCenterFit tan pi st.camera.fov scene).1
          ((sessionViews tan sqrt pi st.camera.fov scene).get ⟨j, Nat.lt_trans hj hk⟩))
        = Except.ok fr) :
    (captureMultiViews tan sqrt pi lookAt render scene st).2 = Except.error e
    ∧ ((captureMultiViews tan sqrt pi lookAt render scene st).1).camera = st.camera
    ∧ ((captureMultiViews tan sqrt pi lookAt render scene st).1).controls
        = st.controls.map (fun _ => { enabled := true, autoRotate := true })
    ∧ ((∃ l, (captureMultiViews tan sqrt pi lookAt render scene st).2 = Except.ok l
          ∧ l.length = 36)
        ∨ (∃ e0, (captureMultiViews tan sqrt pi lookAt render scene st).2
          = Except.error e0)) := by
  have hrun : (captureMultiViews tan sqrt pi lookAt render scene st).2
      = runViews render lookAt st.camera.fov (sceneCenterFit tan pi st.camera.fov scene).1
          (sessionViews tan sqrt pi st.camera.fov scene) [] := rfl
  refine ⟨?_, ?_, ?_, ?_⟩
  · rw [hrun]
    exact runViews_error_of_fail render lookAt _ _ _ k hk e herr hok []
  · exact (capture_final_state tan sqrt pi lookAt render scene st).1
  · exact (capture_final_state tan sqrt pi lookAt render scene st).2
  · rw [hrun]
    simpa [sessionViews_length] using
      runViews_ok_or_error render lookAt st.camera.fov
        (sceneCenterFit tan pi st.camera.fov scene).1
        (sessionViews tan sqrt pi st.camera.fov scene) []

/-- C9: capturing twice in a row on the same scene is idempotent: the second
call produces the same result (hence frame-for-frame identical output under
the deterministic renderer) and the same final session state as the first. -/
theorem capture_idempotent {K : Type} [LinearOrderedField K] {E F : Type}
    (tan sqrt : K → K) (pi : K) (lookAt : Vec3 K → Vec3 K → Vec3 K → Vec3 K)
    (render : Camera K → Except E F) (scene : List (SceneObject K)) (st : SessionState K) :
    captureMultiViews tan sqrt pi lookAt render scene
        (captureMultiViews tan sqrt pi lookAt render scene st).1
      = captureMultiViews tan sqrt pi lookAt render scene st := by
  obtain ⟨cam, ctl⟩ := st
  cases ctl <;> rfl

/-! ## Target resolution -/

/-- The `traverse`-and-assign fold either leaves the accumulator untouched or
ends on some element satisfying the predicate. -/
theorem foldlAssign_cases {K : Type} (p : SceneObject K → Bool) :
    ∀ (l : List (SceneObject K)) (acc : Option (SceneObject K)),
      l.foldl (fun acc c => if p c then some c else acc) acc = acc
      ∨ ∃ m, l.foldl (fun acc c => if p c then some c else acc) acc = some m ∧ p m = true := by
  intro l
  induction l with
  | nil => intro acc; exact Or.inl rfl
  | cons c l ih =>
    intro acc
    cases hc : p c
    · simpa [List.foldl_cons, hc] using ih acc
    · rcases ih (some c) with h0 | ⟨m, hm, hpm⟩
      · exact Or.inr ⟨c, by simp [List.foldl_cons, hc, h0], hc⟩
      · exact Or.inr ⟨m, by simp [List.foldl_cons, hc, hm], hpm⟩

/-- If some element satisfies the predicate, the fold ends on an element
satisfying it. -/
theorem foldlAssign_some_of_exists {K : Type} (p : SceneObject K → Bool) :
    ∀ (l : List (SceneObject K)) (acc : Option (SceneObject K)),
      (∃ c ∈ l, p c = true) →
      ∃ m, l.foldl (fun acc c => if p c then some c else acc) acc = some m ∧ p m = true := by
  intro l
  induction l with
  | nil => intro acc h; simp at h
  | cons c l ih =>
    intro acc h
    cases hc : p c
    · have hl : ∃ x ∈ l, p x = true := by
        rcases h with ⟨x, hx, hpx⟩
        rcases List.mem_cons.mp hx with rfl | hxl
        · rw [hc] at hpx; exact absurd hpx (by simp)
        · exact ⟨x, hxl, hpx⟩
      simpa [List.foldl_cons, hc] using ih acc hl
    · rcases foldlAssign_cases p l (some c) with h0 | ⟨m, hm, hpm⟩
      · exact ⟨c, by simp [List.foldl_cons, hc, h0], hc⟩
      · exact ⟨m, by simp [List.foldl_cons, hc, hm], hpm⟩

/-- If no element satisfies the predicate, the fold returns the accumulator. -/
theorem foldlAssign_of_none {K : Type} (p : SceneObject K → Bool) :
    ∀ (l : List (SceneObject K)) (acc : Option (SceneObject K)),
      (∀ c ∈ l, p c = false) →
      l.foldl (fun acc c => if p c then some c else acc) acc = acc := by
  intro l
  induction l with
  | nil => intro acc _; rfl
  | cons c l ih =>
    intro acc h
    have hc : p c = false := h c (List.mem_cons_self c l)
    simpa [List.foldl_cons, hc] using ih acc (fun x hx => h x (List.mem_cons_of_mem c hx))

/-- C7: target resolution prefers a mesh named "target-mesh", otherwise any
mesh; with no renderable mesh at all the capture still succeeds, returning
the full 36-frame sequence rendered around the fallback center `(0,0,0)` and
fallback distance `100`. -/
theorem target_resolution_and_fallback {K : Type} [LinearOrderedField K] {E F : Type}
    (tan sqrt : K → K) (pi : K) (lookAt : Vec3 K → Vec3 K → Vec3 K → Vec3 K)
    (scene : List (SceneObject K)) (f : Camera K → F) (st : SessionState K) :
    ((∃ c ∈ scene, c.isMesh = true ∧ c.name = "target-mesh") →
      ∃ m, findTarget scene = some m ∧ m.isMesh = true ∧ m.name = "target-mesh")
    ∧ ((∃ c ∈ scene, c.isMesh = true) → ∃ m, findTarget scene = some m ∧ m.isMesh = true)
    ∧ ((∀ c ∈ scene, c.isMesh = false) →
        (captureMultiViews (E := E) tan sqrt pi lookAt (fun c => Except.ok (f c)) scene st).2
          = Except.ok ((mkViews sqrt (100 * 1.6) (100 * 0.55)).map
              (fun v => f (poseCamera lookAt st.camera.fov ⟨0, 0, 0⟩ v)))
        ∧ ∃ l, (captureMultiViews (E := E) tan sqrt pi lookAt (fun c => Except.ok (f c))
            scene st).2 = Except.ok l ∧ l.length = 36) := by
  refine ⟨?_, ?_, ?_⟩
  · rintro ⟨c, hcmem, hcm, hcn⟩
    obtain ⟨m, hm, hpm⟩ := foldlAssign_some_of_exists
      (fun c => c.isMesh && c.name == "target-mesh") scene none
      ⟨c, hcmem, by simp [hcm, hcn]⟩
    refine ⟨m, ?_, ?_, ?_⟩
    · simp only [findTarget, traverseAssign]
      rw [hm]
    · simpa using (Bool.and_eq_true _ _ |>.mp hpm).1
    · simpa using (Bool.and_eq_true _ _ |>.mp hpm).2
  · rintro ⟨c, hcmem, hcm⟩
    by_cases h1 : ∃ x ∈ scene, (x.isMesh && x.name == "target-mesh") = true
    · obtain ⟨m, hm, hpm⟩ := foldlAssign_some_of_exists _ scene none h1
      refine ⟨m, ?_, ?_⟩
      · simp only [findTarget, traverseAssign]
        rw [hm]
      · simpa using (Bool.and_eq_true _ _ |>.mp hpm).1
    · have hall : ∀ x ∈ scene, (x.isMesh && x.name == "target-mesh") = false := by
        intro x hx
        by_contra hx2
        exact h1 ⟨x, hx, by simpa using hx2⟩
      have hnone := foldlAssign_of_none _ scene none hall
      obtain ⟨m, hm, hpm⟩ := foldlAssign_some_of_exists
        (fun c => c.isMesh) scene none ⟨c, hcmem, hcm⟩
      refine ⟨m, ?_, hpm⟩
      simp only [findTarget, traverseAssign]
      rw [hnone, hm]
  · intro hall
    have h1 : ∀ x ∈ scene, (x.isMesh && x.name == "target-mesh") = false := by
      intro x hx; simp [hall x hx]
    have h2 : ∀ x ∈ scene, x.isMesh = false := hall
    have hft : findTarget scene = none := by
      simp only [findTarget, traverseAssign]
      rw [foldlAssign_of_none _ scene none h1, foldlAssign_of_none _ scene none h2]
    have hcf : sceneCenterFit tan pi st.camera.fov scene = (⟨0, 0, 0⟩, 100) := by
      simp [sceneCenterFit, hft]
    have hcap : (captureMultiViews (E := E) tan sqrt pi lookAt (fun c => Except.ok (f c))
        scene st).2
        = runViews (fun c => Except.ok (f c)) lookAt st.camera.fov
            (sceneCenterFit tan pi st.camera.fov scene).1
            (mkViews sqrt ((sceneCenterFit tan pi st.camera.fov scene).2 * 1.6)
              ((sceneCenterFit tan pi st.camera.fov scene).2 * 0.55)) [] := rfl
    rw [hcap, hcf]
    rw [runViews_ok_of_total]
    exact ⟨by simp,
      (mkViews sqrt (100 * 1.6) (100 * 0.55)).map
        (fun v => f (poseCamera lookAt st.camera.fov ⟨0, 0, 0⟩ v)),
      by simp, by simp [mkViews_length]⟩

/-! ## Degenerate bounding boxes (C6) -/

/-- A zero-size bounding box at the origin. -/
def degenerateBox : Box3 ℝ := ⟨⟨0, 0, 0⟩, ⟨0, 0, 0⟩⟩

/-- A scene whose only mesh carries the zero-size bounding box. -/
def degenerateScene : List (SceneObject ℝ) := [⟨"target-mesh", true, degenerateBox⟩]

/-- C6 counterexample: with a mesh present whose bounding box has zero size,
the fit-distance computation yields `0`, not the documented fallback `100` —
so "degenerate bounding box ⇒ fallback constant, never 0" fails on the code:
the fallback only covers the no-mesh case. -/
theorem degenerate_box_fit_zero :
    fitDistanceOf Real.tan Real.pi 40 degenerateBox = 0
    ∧ sceneCenterFit Real.tan Real.pi 40 degenerateScene = (⟨0, 0, 0⟩, 0)
    ∧ (0 : ℝ) ≠ 100 := by
  norm_num [sceneCenterFit, findTarget, traverseAssign, fitDistanceOf, degenerateScene,
    degenerateBox, Box3.getCenter, Box3.getSize, Vec3.add, Vec3.sub, Vec3.smul,
    Prod.ext_iff, Vec3.ext_iff]

/-- C6 amended: the documented fallback constant 100 (a nonzero, finite
value) is returned exactly when no renderable mesh is present; a present mesh
with a zero-size bounding box instead yields fit distance 0. -/
theorem fit_fallback_only_without_mesh {K : Type} [LinearOrderedField K]
    (tan : K → K) (pi fovDeg : K) (scene : List (SceneObject K))
    (h : ∀ c ∈ scene, c.isMesh = false) :
    sceneCenterFit tan pi fovDeg scene = (⟨0, 0, 0⟩, 100) ∧ (100 : K) ≠ 0 := by
  have h1 : ∀ x ∈ scene, (x.isMesh && x.name == "target-mesh") = false := by
    intro x hx; simp [h x hx]
  have hft : findTarget scene = none := by
    simp only [findTarget, traverseAssign]
    rw [foldlAssign_of_none _ scene none h1, foldlAssign_of_none _ scene none h]
  exact ⟨by simp [sceneCenterFit, hft], by norm_num⟩

/-! ## Fit-distance geometry over the reals (C4, C5) -/

/-- C4: for a non-degenerate world-space bounding box and a vertical field of
view strictly between 0° and 180°, the fit distance equals
`(max(Size.x, Size.y, Size.z) / 2) / tan(fovRadians / 2)` and is (finite and)
strictly positive. -/
theorem fitDistance_formula_pos (box : Box3 ℝ) (fovDeg : ℝ)
    (hx : box.min.x ≤ box.max.x) (hy : box.min.y ≤ box.max.y) (hz : box.min.z ≤ box.max.z)
    (hne : box.min ≠ box.max) (h0 : 0 < fovDeg) (h180 : fovDeg < 180) :
    fitDistanceOf Real.tan Real.pi fovDeg box
      = (max (max box.getSize.x box.getSize.y) box.getSize.z / 2)
          / Real.tan (fovDeg * (Real.pi / 180) / 2)
    ∧ 0 < fitDistanceOf Real.tan Real.pi fovDeg box := by
  have hM : 0 < max (max box.getSize.x box.getSize.y) box.getSize.z := by
    have hdiff : box.min.x ≠ box.max.x ∨ box.min.y ≠ box.max.y ∨ box.min.z ≠ box.max.z := by
      by_contra hcon
      push_neg at hcon
      exact hne (Vec3.ext hcon.1 hcon.2.1 hcon.2.2)
    rcases hdiff with hd | hd | hd
    · have : 0 < box.getSize.x := by
        simp only [Box3.getSize, Vec3.sub]
        exact sub_pos.mpr (lt_of_le_of_ne hx hd)
      exact lt_of_lt_of_le this ((le_max_left _ _).trans (le_max_left _ _))
    · have : 0 < box.getSize.y := by
        simp only [Box3.getSize, Vec3.sub]
        exact sub_pos.mpr (lt_of_le_of_ne hy hd)
      exact lt_of_lt_of_le this ((le_max_right _ _).trans (le_max_left _ _))
    · have : 0 < box.getSize.z := by
        simp only [Box3.getSize, Vec3.sub]
        exact sub_pos.mpr (lt_of_le_of_ne hz hd)
      exact lt_of_lt_of_le this (le_max_right _ _)
  have hpi : 0 < Real.pi := Real.pi_pos
  have hθ0 : 0 < fovDeg * (Real.pi / 180) / 2 := by positivity
  have hθ1 : fovDeg * (Real.pi / 180) / 2 < Real.pi / 2 := by
    have h1 : fovDeg * (Real.pi / 180) < 180 * (Real.pi / 180) := by
      apply mul_lt_mul_of_pos_right h180
      positivity
    have h2 : (180 : ℝ) * (Real.pi / 180) = Real.pi := by ring
    rw [h2] at h1
    linarith
  have htan : 0 < Real.tan (fovDeg * (Real.pi / 180) / 2) :=
    Real.tan_pos_of_pos_of_lt_pi_div_two hθ0 hθ1
  have hval : 0 < max (max box.getSize.x box.getSize.y) box.getSize.z / 2
      / Real.tan (fovDeg * (Real.pi / 180) / 2) := by
    apply div_pos (by linarith) htan
  have heq : fitDistanceOf Real.tan Real.pi fovDeg box
      = max (max box.getSize.x box.getSize.y) box.getSize.z / 2
          / Real.tan (fovDeg * (Real.pi / 180) / 2) := by
    simp only [fitDistanceOf]
    exact abs_of_pos hval
  exact ⟨heq, heq ▸ hval⟩

/-- The bounding box `[(-1,-1,-1), (1,1,1)]` of the end-to-end scenario. -/
def unitBox : Box3 ℝ := ⟨⟨-1, -1, -1⟩, ⟨1, 1, 1⟩⟩

/-- A scene containing exactly the target mesh with `unitBox` as its
world-space bounding box. -/
def unitScene : List (SceneObject ℝ) := [⟨"target-mesh", true, unitBox⟩]

theorem tan_twenty_deg_pos : 0 < Real.tan (20 * Real.pi / 180) := by
  have hpi : 0 < Real.pi := Real.pi_pos
  apply Real.tan_pos_of_pos_of_lt_pi_div_two
  · positivity
  · rw [div_lt_div_iff₀ (by norm_num) (by norm_num)]
    nlinarith

theorem unitBox_fit : fitDistanceOf Real.tan Real.pi 40 unitBox
    = 1 / Real.tan (20 * Real.pi / 180) := by
  have harg : (40 : ℝ) * (Real.pi / 180) / 2 = 20 * Real.pi / 180 := by ring
  have hmax : max (max (unitBox.getSize.x) (unitBox.getSize.y)) (unitBox.getSize.z)
      = 2 := by
    norm_num [unitBox, Box3.getSize, Vec3.sub]
  simp only [fitDistanceOf, hmax, harg]
  rw [abs_of_pos]
  · norm_num
  · norm_num
    exact tan_twenty_deg_pos

/-- C5: end-to-end concrete scenario.  For the bounding box
`[(-1,-1,-1), (1,1,1)]` and a 40° field of view, the fit distance is
`1 / tan(20°)` (≈ 2.747), the standard distance is `1.6 ×` that (≈ 4.40) and
the detail distance `0.55 ×` that (≈ 1.51); pose 1 is the standard Top view
with camera position `(0, fit × 1.6, 0)` and up-vector `(0, 0, -1)`, and pose
19 is the detail Top view at `(0, fit × 0.55, 0)`. -/
theorem endToEnd_concrete_poses (lookAt : Vec3 ℝ → Vec3 ℝ → Vec3 ℝ → Vec3 ℝ) :
    fitDistanceOf Real.tan Real.pi 40 unitBox = 1 / Real.tan (20 * Real.pi / 180)
    ∧ sceneCenterFit Real.tan Real.pi 40 unitScene
        = (⟨0, 0, 0⟩, 1 / Real.tan (20 * Real.pi / 180))
    ∧ (sessionViews Real.tan Real.sqrt Real.pi 40 unitScene)[0]?
        = some { name := "Top",
                 offset := ⟨0, 1 / Real.tan (20 * Real.pi / 180) * 1.6, 0⟩,
                 up := ⟨0, 0, -1⟩ }
    ∧ (sessionViews Real.tan Real.sqrt Real.pi 40 unitScene)[18]?
        = some { name := "Top Detail",
                 offset := ⟨0, 1 / Real.tan (20 * Real.pi / 180) * 0.55, 0⟩,
                 up := ⟨0, 0, -1⟩ }
    ∧ (poseCamera lookAt 40 (⟨0, 0, 0⟩ : Vec3 ℝ)
        { name := "Top", offset := ⟨0, 1 / Real.tan (20 * Real.pi / 180) * 1.6, 0⟩,
          up := ⟨0, 0, -1⟩ }).position
        = ⟨0, 1 / Real.tan (20 * Real.pi / 180) * 1.6, 0⟩
    ∧ (poseCamera lookAt 40 (⟨0, 0, 0⟩ : Vec3 ℝ)
        { name := "Top", offset := ⟨0, 1 / Real.tan (20 * Real.pi / 180) * 1.6, 0⟩,
          up := ⟨0, 0, -1⟩ }).up = ⟨0, 0, -1⟩
    ∧ (poseCamera lookAt 40 (⟨0, 0, 0⟩ : Vec3 ℝ)
        { name := "Top Detail", offset := ⟨0, 1 / Real.tan (20 * Real.pi / 180) * 0.55, 0⟩,
          up := ⟨0, 0, -1⟩ }).position
        = ⟨0, 1 / Real.tan (20 * Real.pi / 180) * 0.55, 0⟩ := by
  have hfind : findTarget unitScene = some ⟨"target-mesh", true, unitBox⟩ := by
    simp [findTarget, traverseAssign, unitScene]
  have hcf : sceneCenterFit Real.tan Real.pi 40 unitScene
      = (⟨0, 0, 0⟩, 1 / Real.tan (20 * Real.pi / 180)) := by
    simp only [sceneCenterFit, hfind]
    refine Prod.ext ?_ ?_
    · norm_num [unitBox, Box3.getCenter, Vec3.add, Vec3.smul, Vec3.ext_iff]
    · simpa using unitBox_fit
  have hviews : sessionViews Real.tan Real.sqrt Real.pi 40 unitScene
      = mkViews Real.sqrt (1 / Real.tan (20 * Real.pi / 180) * 1.6)
          (1 / Real.tan (20 * Real.pi / 180) * 0.55) := by
    rw [sessionViews_eq_mkViews, hcf]
  obtain ⟨o, ho, h0, h18⟩ := mkViews_getElem (K := ℝ) Real.sqrt
    (1 / Real.tan (20 * Real.pi / 180) * 1.6)
    (1 / Real.tan (20 * Real.pi / 180) * 0.55) 0 (by norm_num)
  have hoTop : o = ⟨"Top", ⟨0, 1, 0⟩, ⟨0, 0, -1⟩⟩ := by
    have hb : (baseOrientations (K := ℝ))[0]? = some ⟨"Top", ⟨0, 1, 0⟩, ⟨0, 0, -1⟩⟩ := rfl
    rw [hb] at ho
    exact (Option.some.inj ho).symm
  subst hoTop
  have hnorm : Vec3.normalize Real.sqrt (⟨0, 1, 0⟩ : Vec3 ℝ) = ⟨0, 1, 0⟩ := by
    norm_num [Vec3.normalize, Vec3.normSq, Vec3.dot, Vec3.smul, Real.sqrt_one, Vec3.ext_iff]
  refine ⟨unitBox_fit, hcf, ?_, ?_, ?_, rfl, ?_⟩
  · rw [hviews, h0, hnorm]
    norm_num [Vec3.smul, Vec3.ext_iff]
  · rw [Nat.zero_add] at h18
    rw [hviews, h18, hnorm]
    norm_num [Vec3.smul, Vec3.ext_iff]
    rfl
  · norm_num [poseCamera, Vec3.add, Vec3.ext_iff]
  · norm_num [poseCamera, Vec3.add, Vec3.ext_iff]

/-! ## Orientation-table geometry (C8) -/

theorem Vec3.normSq_smul {K : Type} [LinearOrderedField K] (c : K) (v : Vec3 K) :
    (Vec3.smul c v).normSq = c ^ 2 * v.normSq := by
  simp only [Vec3.normSq, Vec3.dot, Vec3.smul]
  ring

theorem Vec3.smul_smul {K : Type} [LinearOrderedField K] (a b : K) (v : Vec3 K) :
    Vec3.smul a (Vec3.smul b v) = Vec3.smul (a * b) v := by
  simp only [Vec3.smul, Vec3.ext_iff]
  exact ⟨by ring, by ring, by ring⟩

theorem Vec3.smul_one {K : Type} [LinearOrderedField K] (v : Vec3 K) :
    Vec3.smul 1 v = v := by
  simp [Vec3.smul]

theorem Vec3.cross_smul_left {K : Type} [LinearOrderedField K] (a : K) (u w : Vec3 K) :
    Vec3.cross (Vec3.smul a u) w = Vec3.smul a (Vec3.cross u w) := by
  simp only [Vec3.cross, Vec3.smul, Vec3.ext_iff]
  exact ⟨by ring, by ring, by ring⟩

theorem Vec3.cross_self {K : Type} [LinearOrderedField K] (v : Vec3 K) :
    Vec3.cross v v = ⟨0, 0, 0⟩ := by
  simp only [Vec3.cross, Vec3.ext_iff]
  exact ⟨by ring, by ring, by ring⟩

theorem Vec3.smul_zero_vec {K : Type} [LinearOrderedField K] (a : K) :
    Vec3.smul a (⟨0, 0, 0⟩ : Vec3 K) = ⟨0, 0, 0⟩ := by
  simp [Vec3.smul]

/-- Normalizing a vector of positive squared length yields a unit vector. -/
theorem length_normalize_of_pos (v : Vec3 ℝ) (h : 0 < v.normSq) :
    Vec3.length Real.sqrt (Vec3.normalize Real.sqrt v) = 1 := by
  have hq : Real.sqrt v.normSq ^ 2 = v.normSq := Real.sq_sqrt h.le
  have hne : v.normSq ≠ 0 := ne_of_gt h
  rw [Vec3.length, Vec3.normalize, Vec3.normSq_smul, div_pow, one_pow, hq, one_div,
    inv_mul_cancel₀ hne, Real.sqrt_one]

/-- A normalized vector is never a scalar multiple of a vector it has a
nonzero cross product with: the source's directions are never (anti-)parallel
to their up-vectors. -/
theorem normalize_not_smul (v u : Vec3 ℝ) (hv : 0 < v.normSq)
    (hc : Vec3.cross v u ≠ (⟨0, 0, 0⟩ : Vec3 ℝ)) (t : ℝ) :
    Vec3.normalize Real.sqrt v ≠ Vec3.smul t u := by
  intro heq
  have hs : 0 < Real.sqrt v.normSq := Real.sqrt_pos.mpr hv
  have hv2 : v = Vec3.smul (Real.sqrt v.normSq * t) u := by
    have h1 := congrArg (Vec3.smul (Real.sqrt v.normSq)) heq
    rw [Vec3.normalize, Vec3.smul_smul, Vec3.smul_smul, mul_one_div,
      div_self (ne_of_gt hs), Vec3.smul_one] at h1
    exact h1
  apply hc
  rw [hv2, Vec3.cross_smul_left, Vec3.cross_self, Vec3.smul_zero_vec]

/-- Every table entry has a direction of positive squared length whose
normalization is unit and not a multiple of the paired up-vector. -/
theorem baseOrientations_geometry :
    ∀ o : Orientation ℝ, o ∈ baseOrientations →
      Vec3.length Real.sqrt (Vec3.normalize Real.sqrt o.vec) = 1
      ∧ ∀ t : ℝ, Vec3.normalize Real.sqrt o.vec ≠ Vec3.smul t o.up := by
  intro o ho
  simp only [baseOrientations, List.mem_cons, List.not_mem_nil, or_false] at ho
  rcases ho with rfl | rfl | rfl | rfl | rfl | rfl | rfl | rfl | rfl | rfl | rfl | rfl | rfl |
    rfl | rfl | rfl | rfl | rfl <;>
    exact ⟨length_normalize_of_pos _ (by norm_num [Vec3.normSq, Vec3.dot]),
      fun t => normalize_not_smul _ _ (by norm_num [Vec3.normSq, Vec3.dot])
        (by norm_num [Vec3.cross, Vec3.ext_iff]) t⟩

/-- C8: every pose of the generated view sequence comes from a table entry
whose direction vector, once normalized, has unit length (exactly, hence
within 1e-6) and is never parallel nor anti-parallel to the paired
up-vector. -/
theorem orientation_unit_and_not_parallel (s m : ℝ) :
    List.Forall (fun v : View ℝ =>
      ∃ o : Orientation ℝ, o ∈ baseOrientations
        ∧ v.up = o.up
        ∧ (v.offset = Vec3.smul s (Vec3.normalize Real.sqrt o.vec)
            ∨ v.offset = Vec3.smul m (Vec3.normalize Real.sqrt o.vec))
        ∧ Vec3.length Real.sqrt (Vec3.normalize Real.sqrt o.vec) = 1
        ∧ ∀ t : ℝ, Vec3.normalize Real.sqrt o.vec ≠ Vec3.smul t o.up)
      (mkViews Real.sqrt s m) := by
  rw [List.forall_iff_forall_mem]
  intro v hv
  rw [mkViews, List.mem_append] at hv
  rcases hv with hv | hv <;> rw [List.mem_map] at hv <;> obtain ⟨o, ho, rfl⟩ := hv
  · exact ⟨o, ho, rfl, Or.inl rfl, baseOrientations_geometry o ho⟩
  · exact ⟨o, ho, rfl, Or.inr rfl, baseOrientations_geometry o ho⟩

/-! ## UI labels (C10) -/

/-- C10: the UI's 36 view labels match, index by index, the capture routine's
orientation names and block order: label `i` (`i < 18`) is table name `i`
plus " (Global)" while frame `i` is the global view of table entry `i`, and
label `i + 18` is table name `i` plus " (Local Detail)" while frame `i + 18`
is its " Detail" view. -/
theorem labels_match_view_names :
    ORIENTATIONS = (baseOrientations (K := ℚ)).map Orientation.name
    ∧ (∀ (s t : ℚ) (sq : ℚ → ℚ), (mkViews sq s t).map View.name
        = ORIENTATIONS ++ ORIENTATIONS.map (fun n => n ++ " Detail"))
    ∧ VIEW_LABELS
        = ORIENTATIONS.map (fun n => n ++ " (Global)")
          ++ ORIENTATIONS.map (fun n => n ++ " (Local Detail)")
    ∧ VIEW_LABELS.length = 36
    ∧ (∀ i, i < 18 →
        VIEW_LABELS[i]? = (ORIENTATIONS[i]?).map (fun n => n ++ " (Global)")
        ∧ VIEW_LABELS[i + 18]? = (ORIENTATIONS[i]?).map (fun n => n ++ " (Local Detail)")) := by
  refine ⟨rfl, ?_, rfl, rfl, ?_⟩
  · intro s t sq
    simp only [mkViews, List.map_append, List.map_map]
    rfl
  · decide

/-! ## Concrete fixtures and witnesses -/

/-- A concrete rational tangent stand-in for evaluation. -/
def tanQ : ℚ → ℚ := fun _ => 1

/-- A concrete rational square-root stand-in for evaluation. -/
def sqrtQ : ℚ → ℚ := fun _ => 1

/-- A concrete `lookAt` stand-in for evaluation. -/
def lookAtQ : Vec3 ℚ → Vec3 ℚ → Vec3 ℚ → Vec3 ℚ := fun _ _ _ => ⟨0, 0, 0⟩

/-- A concrete session state: camera at the origin with 40° field of view and
present controls. -/
def stQ : SessionState ℚ :=
  ⟨⟨⟨0, 0, 0⟩, ⟨0, 0, 0⟩, ⟨0, 1, 0⟩, 40⟩, some ⟨true, true⟩⟩

/-- A scene with two meshes, the second being the tagged target. -/
def sceneA : List (SceneObject ℚ) :=
  [⟨"other", true, ⟨⟨0, 0, 0⟩, ⟨1, 1, 1⟩⟩⟩, ⟨"target-mesh", true, ⟨⟨0, 0, 0⟩, ⟨2, 2, 2⟩⟩⟩]

/-- A scene with one untagged mesh. -/
def sceneB : List (SceneObject ℚ) := [⟨"plain", true, ⟨⟨0, 0, 0⟩, ⟨1, 1, 1⟩⟩⟩]

theorem capture_views_structure_witness :
    (sessionViews tanQ sqrtQ 3 stQ.camera.fov []).length = 36
    ∧ (∃ o : Orientation ℚ, (baseOrientations (K := ℚ))[0]? = some o
        ∧ (sessionViews tanQ sqrtQ 3 stQ.camera.fov [])[0]?
            = some { name := o.name,
                     offset := Vec3.smul ((sceneCenterFit tanQ 3 stQ.camera.fov []).2 * 1.6)
                       (Vec3.normalize sqrtQ o.vec),
                     up := o.up }
        ∧ (sessionViews tanQ sqrtQ 3 stQ.camera.fov [])[0 + 18]?
            = some { name := o.name ++ " Detail",
                     offset := Vec3.smul ((sceneCenterFit tanQ 3 stQ.camera.fov []).2 * 0.55)
                       (Vec3.normalize sqrtQ o.vec),
                     up := o.up }) :=
  ⟨(capture_views_structure (E := String) tanQ sqrtQ 3 lookAtQ [] stQ (fun _ => (0 : ℕ))).1,
   (capture_views_structure (E := String) tanQ sqrtQ 3 lookAtQ [] stQ
      (fun _ => (0 : ℕ))).2.1 0 (by norm_num)⟩

theorem capture_failure_propagates_witness :
    (captureMultiViews tanQ sqrtQ 3 lookAtQ
        (fun _ => (Except.error "E" : Except String ℕ)) [] stQ).2 = Except.error "E"
    ∧ ((captureMultiViews tanQ sqrtQ 3 lookAtQ
        (fun _ => (Except.error "E" : Except String ℕ)) [] stQ).1).camera = stQ.camera
    ∧ ((captureMultiViews tanQ sqrtQ 3 lookAtQ
        (fun _ => (Except.error "E" : Except String ℕ)) [] stQ).1).controls
        = stQ.controls.map (fun _ => { enabled := true, autoRotate := true })
    ∧ ((∃ l, (captureMultiViews tanQ sqrtQ 3 lookAtQ
          (fun _ => (Except.error "E" : Except String ℕ)) [] stQ).2 = Except.ok l
          ∧ l.length = 36)
        ∨ (∃ e0, (captureMultiViews tanQ sqrtQ 3 lookAtQ
          (fun _ => (Except.error "E" : Except String ℕ)) [] stQ).2 = Except.error e0)) :=
  capture_failure_propagates tanQ sqrtQ 3 lookAtQ (fun _ => Except.error "E") [] stQ 0 "E"
    (by rw [sessionViews_length]; norm_num) rfl (fun j hj => absurd hj (Nat.not_lt_zero j))

theorem fitDistance_formula_pos_witness :
    fitDistanceOf Real.tan Real.pi 40 unitBox
      = (max (max unitBox.getSize.x unitBox.getSize.y) unitBox.getSize.z / 2)
          / Real.tan (40 * (Real.pi / 180) / 2)
    ∧ 0 < fitDistanceOf Real.tan Real.pi 40 unitBox :=
  fitDistance_formula_pos unitBox 40 (by norm_num [unitBox]) (by norm_num [unitBox])
    (by norm_num [unitBox]) (by norm_num [unitBox, Vec3.ext_iff]) (by norm_num) (by norm_num)

theorem fit_fallback_only_without_mesh_witness :
    sceneCenterFit tanQ 3 40 ([] : List (SceneObject ℚ)) = (⟨0, 0, 0⟩, 100)
    ∧ (100 : ℚ) ≠ 0 :=
  fit_fallback_only_without_mesh tanQ 3 40 [] (by simp)

theorem target_resolution_and_fallback_witness :
    (∃ m, findTarget sceneA = some m ∧ m.isMesh = true ∧ m.name = "target-mesh")
    ∧ (∃ m, findTarget sceneB = some m ∧ m.isMesh = true)
    ∧ ((captureMultiViews (E := String) tanQ sqrtQ 3 lookAtQ
          (fun c => Except.ok ((fun _ => (0 : ℕ)) c)) [] stQ).2
        = Except.ok ((mkViews sqrtQ (100 * 1.6) (100 * 0.55)).map
            (fun v => (fun _ => (0 : ℕ)) (poseCamera lookAtQ stQ.camera.fov ⟨0, 0, 0⟩ v)))
        ∧ ∃ l, (captureMultiViews (E := String) tanQ sqrtQ 3 lookAtQ
            (fun c => Except.ok ((fun _ => (0 : ℕ)) c)) [] stQ).2 = Except.ok l
            ∧ l.length = 36) :=
  ⟨(target_resolution_and_fallback (E := String) tanQ sqrtQ 3 lookAtQ sceneA
      (fun _ => (0 : ℕ)) stQ).1
      ⟨⟨"target-mesh", true, ⟨⟨0, 0, 0⟩, ⟨2, 2, 2⟩⟩⟩, by simp [sceneA], rfl, rfl⟩,
   (target_resolution_and_fallback (E := String) tanQ sqrtQ 3 lookAtQ sceneB
      (fun _ => (0 : ℕ)) stQ).2.1
      ⟨⟨"plain", true, ⟨⟨0, 0, 0⟩, ⟨1, 1, 1⟩⟩⟩, by simp [sceneB], rfl⟩,
   (target_resolution_and_fallback (E := String) tanQ sqrtQ 3 lookAtQ []
      (fun _ => (0 : ℕ)) stQ).2.2 (by simp)⟩

theorem labels_match_view_names_witness :
    VIEW_LABELS[0]? = (ORIENTATIONS[0]?).map (fun n => n ++ " (Global)")
    ∧ VIEW_LABELS[0 + 18]? = (ORIENTATIONS[0]?).map (fun n => n ++ " (Local Detail)") :=
  labels_match_view_names.2.2.2.2 0 (by norm_num)

end Capture
